/-
Verification of the TrafficIngestor job scheduler
(src/trafficIngestor/base_traffic_ingestor_yjn.py) against its
natural-language specification.

The Python code is shallowly embedded: pure helpers become Lean
functions, the stateful worker loop becomes an explicit step function /
step relation on a batch state, and wall-clock instants are modelled as
rationals.  Each definition is translated from the source file; line
numbers in the doc comments refer to base_traffic_ingestor_yjn.py.
-/
import Mathlib

namespace TrafficIngestor

/-! ## Python `str.replace` (used by `process_result`, lines 439-443)

`p.replace("/app", HOST_CODE_PATH)` replaces every non-overlapping
occurrence of the pattern, scanning left to right.  We model strings as
`List Char`. -/

/-- Python `pat in s` (substring test) on character lists, for a fixed
pattern: true iff `pat` occurs contiguously in `s`. -/
def hasOccur (pat : List Char) : List Char → Bool
  | [] => List.isPrefixOf pat []
  | c :: rest => List.isPrefixOf pat (c :: rest) || hasOccur pat rest

/-- Fuel-indexed worker for `replaceAll`; the fuel dominates the length
of the remaining input, and every recursive call strictly shrinks the
input (the pattern is non-empty in the guarded branch), so fuel
`s.length` is always enough. -/
def replaceAllF (pat rep : List Char) : Nat → List Char → List Char
  | 0, s => s
  | _ + 1, [] => []
  | fuel + 1, c :: rest =>
    if pat ≠ [] ∧ List.isPrefixOf pat (c :: rest) then
      rep ++ replaceAllF pat rep fuel ((c :: rest).drop pat.length)
    else
      c :: replaceAllF pat rep fuel rest

/-- Python `s.replace(pat, rep)` on character lists: replace every
non-overlapping occurrence of `pat` in `s` by `rep`, scanning left to
right.  (For the empty pattern Python inserts `rep` everywhere; the
code only ever uses the fixed non-empty pattern "/app", and the guard
keeps the empty-pattern case trivially total.) -/
def replaceAll (pat rep s : List Char) : List Char :=
  replaceAllF pat rep s.length s

/-- The container-path → host-path rewriting of `process_result`
(lines 439-443): `p.replace("/app", HOST_CODE_PATH)`. -/
def rewritePath (hostCodePath : String) (p : String) : String :=
  (replaceAll "/app".data hostCodePath.data p.data).asString

/-! ## `chown_recursive` parameter resolution (lines 247-250)

`uid = uid or self.DEFAULT_UID` / `gid = gid or self.DEFAULT_GID`:
Python `or` falls through on falsy values, i.e. on `None` and on `0`. -/

/-- Owner id actually applied by `chown_recursive` for one parameter
(`uid` or `gid`): `param or default` in Python, where `None` and `0`
are falsy. -/
def chownEffectiveOwner (param : Option Int) (dflt : Int) : Int :=
  match param with
  | none => dflt
  | some u => if u = 0 then dflt else u

/-- The pair of owner ids `chown_recursive(path, uid, gid)` applies to
every file it touches (lines 247-268). -/
def chown_recursive_owners (uid gid : Option Int) (dUid dGid : Int) : Int × Int :=
  (chownEffectiveOwner uid dUid, chownEffectiveOwner gid dGid)

/-! ## Dispatch throttle `_wait_before_first_exec` (lines 359-372)

State: a global "next allowed first-exec timestamp" and the set of
containers that have already passed the gate (lines 72-74).  Time is
modelled as a rational (`time.monotonic()` instants).  A call either
returns immediately (container already seen) or schedules itself at
`max(now, next_ts)`, advances `next_ts` by the interval, and sleeps
`scheduled - now` (the code only sleeps when this is positive; here it
is always ≥ 0 since `scheduled ≥ now`). -/

structure ThrottleState where
  nextTs : ℚ
  doneContainers : List String
deriving DecidableEq, Repr

/-- One call of `_wait_before_first_exec(container)` at monotonic time
`now`: returns the new state and the sleep duration incurred by that
call (0 when no sleep happens).  `interval` is
`max(float(FIRST_EXEC_INTERVAL), 0.0)` from line 361. -/
def wait_before_first_exec (interval : ℚ) (st : ThrottleState) (container : String)
    (now : ℚ) : ThrottleState × ℚ :=
  if container ∈ st.doneContainers then (st, 0)
  else
    let scheduled := max now st.nextTs
    (⟨scheduled + interval, container :: st.doneContainers⟩, scheduled - now)

/-- The sleep durations produced by a sequence of gate calls
`(container, now)`, threading the throttle state. -/
def throttleWaits (interval : ℚ) (st : ThrottleState) : List (String × ℚ) → List ℚ
  | [] => []
  | (c, t) :: rest =>
    let r := wait_before_first_exec interval st c t
    r.2 :: throttleWaits interval r.1 rest

/-- Like `throttleWaits`, but each call is paired with the number of
containers that had already passed the gate when it arrived. -/
def throttleTrace (interval : ℚ) (st : ThrottleState) :
    List (String × ℚ) → List (Nat × ℚ)
  | [] => []
  | (c, t) :: rest =>
    let r := wait_before_first_exec interval st c t
    (st.doneContainers.length, r.2) :: throttleTrace interval r.1 rest

/-! ## CSV row removal `remove_from_csv` (lines 308-357) -/

/-- Python `str.strip()` restricted to the whitespace characters Lean
recognises (space, tab, newline, carriage return) — the ids handled by
the code are ASCII. -/
def pstrip (s : String) : String :=
  ((s.data.dropWhile Char.isWhitespace).reverse.dropWhile Char.isWhitespace).reverse.asString

/-- A CSV data row as produced by `csv.DictReader`: association list
from header field to cell value, in header order. -/
abbrev Row := List (String × String)

/-- ASCII lower-casing of one character (`str.lower()` restricted to
the ASCII header names the code handles). -/
def charToLower (c : Char) : Char :=
  if 'A' ≤ c ∧ c ≤ 'Z' then Char.ofNat (c.toNat + 32) else c

/-- Python `s.lower()` on ASCII strings. -/
def pyLower (s : String) : String :=
  (s.data.map charToLower).asString

/-- `get_id(row)` (lines 326-330): the stripped value of the first
column whose name lower-cases to "id", or "" if there is none. -/
def row_get_id (r : Row) : String :=
  match r.find? (fun kv => pyLower kv.1 == "id") with
  | some kv => pstrip kv.2
  | none => ""

/-- The filtering loop of lines 333-339: walk the rows with a `removed`
flag, skipping the first row whose id equals `target`; returns the kept
rows (in order) and whether a row was removed. -/
def remove_first_rows (target : String) : Bool → List Row → List Row × Bool
  | removed, [] => ([], removed)
  | removed, r :: rest =>
    if !removed && (row_get_id r == target) then
      remove_first_rows target true rest
    else
      let p := remove_first_rows target removed rest
      (r :: p.1, p.2)

/-- The CSV file as `remove_from_csv` sees it: absent
(`not p.exists()`), present but without a header row
(`reader.fieldnames is None`), or a header plus data rows. -/
inductive CsvState where
  | missing
  | headerless
  | table (header : List String) (rows : List Row)
deriving DecidableEq

/-- `remove_from_csv(csv_path, row_id)` (lines 308-357) as a function
on the file contents: strip the id; return unchanged on empty id,
missing file, missing header, or no matching row; otherwise rewrite the
file with the first matching row dropped. -/
def remove_from_csv (st : CsvState) (row_id : String) : CsvState :=
  let target := pstrip row_id
  if target = "" then st
  else
    match st with
    | .missing => .missing
    | .headerless => .headerless
    | .table h rows =>
      let p := remove_first_rows target false rows
      if p.2 then .table h p.1 else .table h rows

/-! ## Jobs and the worker loop (lines 491-553, 572-586)

A job is the task dict: `row_id`, `url`, `domain`, plus the keys the
scheduler adds while it runs — `container`, `_retry_count` (absent ↦ 0)
and `_start_time` (absent until first dispatch). -/

structure Job where
  row_id : String := ""
  url : String := ""
  domain : Option String := none
  container : Option String := none
  retryCount : Nat := 0
  startTime : Option ℚ := none
deriving DecidableEq, Repr

/-- A minimal concrete job, used to instantiate theorems. -/
def mkJob (i : Nat) : Job :=
  { row_id := toString i, url := "http://example.test/" ++ toString i }

/-! ## Result relocation `process_result` (lines 420-466) -/

/-- The per-container result manifest `{container}_last.json`.  Each
path field is `result.get(key)`: `none` models a missing key, and the
empty string is likewise falsy for the `all([...])` check of line 435.
`current_url` is `result.get("current_url", "")`. -/
structure ResultManifest where
  pcap_path : Option String := none
  ssl_key_file_path : Option String := none
  content_path : Option String := none
  html_path : Option String := none
  screenshot_path : Option String := none
  current_url : String := ""
deriving DecidableEq, Repr

/-- Python truthiness of one `result.get(...)` value: present and
non-empty. -/
def pathTruthy : Option String → Bool
  | none => false
  | some s => !s.data.isEmpty

/-- `os.path.join` for the non-empty relative components used here. -/
def pathJoin (a b : String) : String := a ++ "/" ++ b

/-- `os.path.basename`: the component after the last slash. -/
def baseName (p : String) : String :=
  ((p.data.reverse.takeWhile (fun c => c ≠ '/')).reverse).asString

/-- `shutil.move(src, dst_dir)` into an (ensured) directory returns
`os.path.join(dst_dir, basename(src))`; `move_and_chown` (lines
270-275) returns that path after the best-effort ownership fix. -/
def move_and_chown_path (src dstDir : String) : String :=
  pathJoin dstDir (baseName src)

/-- The host paths handed to `on_task_success` (lines 457-464). -/
structure SuccessPaths where
  pcap : String
  ssl_key : String
  content : String
  html : String
  screenshot : String
  current_url : String
deriving DecidableEq, Repr

/-- Observable outcome of `process_result`: the returned
`(ok, errorText)` pair, the file moves performed (source path and
destination directory, in program order) and the payload passed to the
success callback (`none` when the callback is not invoked). -/
structure ProcessOutcome where
  ok : Bool
  err : String
  moves : List (String × String)
  successPaths : Option SuccessPaths
deriving DecidableEq, Repr

/-- `process_result(task, container)` (lines 420-466) from the point
where the manifest has been parsed: check the five required paths,
rewrite container paths to host paths, move each artifact into the
`BASE_DST/<kind>/<date>/<domain>` tree, and call the success callback
with the final paths.  `dateStr` is `time.strftime("%Y%m%d")`. -/
def process_result (hostCodePath baseDst dateStr : String) (task : Job)
    (result : ResultManifest) : ProcessOutcome :=
  if !(pathTruthy result.pcap_path && pathTruthy result.ssl_key_file_path &&
       pathTruthy result.content_path && pathTruthy result.html_path &&
       pathTruthy result.screenshot_path) then
    { ok := false, err := "result JSON missing required paths", moves := [], successPaths := none }
  else
    let pcap := rewritePath hostCodePath (result.pcap_path.getD "")
    let sslKey := rewritePath hostCodePath (result.ssl_key_file_path.getD "")
    let content := rewritePath hostCodePath (result.content_path.getD "")
    let html := rewritePath hostCodePath (result.html_path.getD "")
    let screenshot := rewritePath hostCodePath (result.screenshot_path.getD "")
    let domain := task.domain.getD "unknown"
    let dstPcap := pathJoin (pathJoin (pathJoin baseDst "pcap") dateStr) domain
    let dstSsl := pathJoin (pathJoin (pathJoin baseDst "ssl_key") dateStr) domain
    let dstContent := pathJoin (pathJoin (pathJoin baseDst "content") dateStr) domain
    let dstHtml := pathJoin (pathJoin (pathJoin baseDst "html") dateStr) domain
    let dstScreenshot := pathJoin (pathJoin (pathJoin baseDst "screenshot") dateStr) domain
    { ok := true
      err := ""
      moves := [(pcap, dstPcap), (sslKey, dstSsl), (content, dstContent),
                (html, dstHtml), (screenshot, dstScreenshot)]
      successPaths := some
        { pcap := move_and_chown_path pcap dstPcap
          ssl_key := move_and_chown_path sslKey dstSsl
          content := move_and_chown_path content dstContent
          html := move_and_chown_path html dstHtml
          screenshot := move_and_chown_path screenshot dstScreenshot
          current_url := result.current_url } }

/-! ## One worker iteration (lines 494-553) -/

/-- How one execution of a popped task ends, as seen by `worker_loop`:
`exec_once` returned `(True, "")`, returned `(False, err)`, raised
`subprocess.TimeoutExpired`, or raised some other exception. -/
inductive Outcome where
  | ok
  | fail (err : String)
  | timeout
  | exc (err : String)
deriving DecidableEq, Repr

/-- Lines 502-508: stamp the task with its container and, only when
`_start_time` is absent, with the current time. -/
def dispatchPrep (container : String) (now : ℚ) (j : Job) : Job :=
  { j with container := some container, startTime := some (j.startTime.getD now) }

/-- Line 534: the error text used on `subprocess.TimeoutExpired`. -/
def timeoutErrText (timeoutSecs : Nat) : String :=
  "timeout>" ++ toString timeoutSecs ++ "s"

/-- The effect of one `worker_loop` iteration on its task: success,
re-enqueue with the given backoff sleep, or terminal failure.  Terminal
and success results carry the elapsed time the code records
(`time.time() - task["_start_time"]`). -/
inductive StepResult where
  | succeeded (elapsed : ℚ)
  | requeued (j : Job) (backoff : ℚ)
  | terminallyFailed (j : Job) (err : String) (elapsed : ℚ)
deriving DecidableEq, Repr

/-- One iteration of `worker_loop` (lines 494-553) on a task popped at
time `ns` whose execution finishes (or terminally fails) at time `ne`,
with the execution outcome `o` supplied by the environment.  `retry` is
the retry budget and `timeoutSecs` is `DOCKER_EXEC_TIMEOUT`. -/
def worker_step (retry timeoutSecs : Nat) (container : String) (ns ne : ℚ)
    (j0 : Job) (o : Outcome) : StepResult :=
  let j := dispatchPrep container ns j0
  let attempt := j0.retryCount
  let t0 := j.startTime.getD ns
  match o with
  | .ok => .succeeded (ne - t0)
  | .fail err =>
    if attempt < retry then .requeued { j with retryCount := attempt + 1 } 2
    else .terminallyFailed j err (ne - t0)
  | .timeout =>
    if attempt < retry then .requeued { j with retryCount := attempt + 1 } 2
    else .terminallyFailed j (timeoutErrText timeoutSecs) (ne - t0)
  | .exc err =>
    if attempt < retry then .requeued { j with retryCount := attempt + 1 } 2
    else .terminallyFailed j err (ne - t0)

/-! ## Batch state and statistics (lines 476-489, 572-586, 623-626) -/

/-- The shared `stats` dict of `run_once`:
`{"ok": 0, "fail": 0, "errors": []}`. -/
structure RunStats where
  ok : Nat := 0
  fail : Nat := 0
  errors : List (Job × String) := []
deriving DecidableEq, Repr

/-- `_handle_final_failure` (lines 476-489) restricted to its effect on
`stats`: increment `fail` and append the `(task, err)` sample — with no
cap on the list. -/
def handle_final_failure (task : Job) (err : String) (stats : RunStats) : RunStats :=
  { stats with fail := stats.fail + 1, errors := stats.errors ++ [(task, err)] }

/-- The error samples actually printed by the batch summary in `run`
(line 625): `stats["errors"][:10]`. -/
def reported_error_samples (stats : RunStats) : List (Job × String) :=
  stats.errors.take 10

/-- Shared state of one `run_once` batch: the pending-task queue (FIFO,
`queue.Queue`) and the stats record. -/
structure BatchState where
  queue : List Job
  stats : RunStats
deriving DecidableEq, Repr

/-- How a worker iteration's result updates the queue and stats: a
success bumps `ok` (line 521), a requeue puts the task at the back of
the queue (line 529), a terminal failure runs
`_handle_final_failure` (line 531). -/
def apply_step (res : StepResult) (queue : List Job) (stats : RunStats) :
    List Job × RunStats :=
  match res with
  | .succeeded _ => (queue, { stats with ok := stats.ok + 1 })
  | .requeued j' _ => (queue ++ [j'], stats)
  | .terminallyFailed j err _ => (queue, handle_final_failure j err stats)

/-- The initial state of `run_once(names, jobs)` (lines 574-578): the
queue holds the submitted jobs, the stats are zeroed. -/
def run_once_init (jobs : List Job) : BatchState := ⟨jobs, {}⟩

/-- One atomic scheduling step of a batch: some worker (bound to
`container`) pops the queue head, runs it with outcome `o`, and applies
the result.  The dispatch time `ns`, completion time `ne` and outcome
are chosen by the environment. -/
inductive BatchStep (retry timeoutSecs : Nat) : BatchState → BatchState → Prop where
  | dispatch (container : String) (ns ne : ℚ) (o : Outcome) (j : Job)
      (rest : List Job) (stats : RunStats) :
      BatchStep retry timeoutSecs ⟨j :: rest, stats⟩
        ⟨(apply_step (worker_step retry timeoutSecs container ns ne j o) rest stats).1,
         (apply_step (worker_step retry timeoutSecs container ns ne j o) rest stats).2⟩

/-- A batch execution: reflexive-transitive closure of single steps. -/
abbrev BatchReaches (retry timeoutSecs : Nat) : BatchState → BatchState → Prop :=
  Relation.ReflTransGen (BatchStep retry timeoutSecs)

/-- Deterministic replay of a batch in which every execution fails with
a fixed error: repeatedly apply `worker_step` with outcome
`.fail err` to the queue head.  Used to exhibit concrete final
states. -/
def run_once_all_fail (retry timeoutSecs : Nat) (err : String) :
    Nat → BatchState → BatchState
  | 0, s => s
  | fuel + 1, s =>
    match s.queue with
    | [] => s
    | j :: rest =>
      let p := apply_step (worker_step retry timeoutSecs "c0" 0 0 j (.fail err)) rest s.stats
      run_once_all_fail retry timeoutSecs err fuel ⟨p.1, p.2⟩

/-- The attempt values (`_retry_count` as read at line 505) of the
successive dispatches of a single job when every execution fails with
error `err`, following `worker_step` until it stops re-enqueueing;
`fuel` bounds the trace length. -/
def all_fail_dispatches (retry timeoutSecs : Nat) (err : String) :
    Nat → Job → List Nat
  | 0, _ => []
  | fuel + 1, j =>
    j.retryCount ::
      (match worker_step retry timeoutSecs "c0" 0 0 j (.fail err) with
       | .requeued j' _ => all_fail_dispatches retry timeoutSecs err fuel j'
       | _ => [])

/-- Replay of a single job's requeue chain along a list of dispatch
events `(container, start, end, outcome)`: follow `worker_step` while
it re-enqueues, return the job state at which the trace stopped (either
events exhausted or a terminal result). -/
def run_requeues (retry timeoutSecs : Nat) (j : Job) :
    List (String × ℚ × ℚ × Outcome) → Job
  | [] => j
  | (c, ns, ne, o) :: rest =>
    match worker_step retry timeoutSecs c ns ne j o with
    | .requeued j' _ => run_requeues retry timeoutSecs j' rest
    | _ => j

/-! # Helper lemmas -/

/-- Replacing a pattern that does not occur leaves the string
unchanged, for any fuel. -/
theorem replaceAllF_eq_self (pat rep : List Char) :
    ∀ (fuel : Nat) (s : List Char), hasOccur pat s = false →
      replaceAllF pat rep fuel s = s := by
  intro fuel
  induction fuel with
  | zero => intro s _; rfl
  | succ n ih =>
    intro s hs
    cases s with
    | nil => rfl
    | cons c rest =>
      have hor := hs
      rw [hasOccur, Bool.or_eq_false_iff] at hor
      rw [replaceAllF, if_neg, ih rest hor.2]
      intro hcontra
      rw [hcontra.2] at hor
      exact Bool.false_ne_true hor.1.symm

/-- Replacing a non-occurring pattern is the identity. -/
theorem replaceAll_eq_self (pat rep s : List Char) (h : hasOccur pat s = false) :
    replaceAll pat rep s = s :=
  replaceAllF_eq_self pat rep s.length s h

/-! # Claims -/

/-- C4 (counterexample): the path rewriting of `process_result` is not
idempotent as claimed: with `HOST_CODE_PATH = "/data/app"` (a host
root that itself contains "/app"), rewriting "/app/x" once yields
"/data/app/x" but rewriting it again yields "/data/data/app/x". -/
theorem c4_rewrite_not_idempotent_counterexample :
    rewritePath "/data/app" (rewritePath "/data/app" "/app/x") ≠
      rewritePath "/data/app" "/app/x" := by
  decide

/-- C4 (amended): the rewriting is a no-op on any path containing no
occurrence of "/app", and it is idempotent on every path whose
once-rewritten form contains no occurrence of "/app" — in particular
whenever `HOST_CODE_PATH` neither contains "/app" nor recreates an
occurrence at a replacement boundary.  Without that proviso
idempotence fails (see the counterexample). -/
theorem c4_rewrite_idempotent_amended (host p : String) :
    (hasOccur "/app".data p.data = false → rewritePath host p = p) ∧
    (hasOccur "/app".data (rewritePath host p).data = false →
      rewritePath host (rewritePath host p) = rewritePath host p) := by
  have key : ∀ q : String, hasOccur "/app".data q.data = false →
      rewritePath host q = q := by
    intro q hq
    show (replaceAll "/app".data host.data q.data).asString = q
    rw [replaceAll_eq_self _ _ _ hq]
    exact String.asString_toList q
  exact ⟨key p, key (rewritePath host p)⟩

/-- C4 (witness): with host root "/data" (no "/app" inside), rewriting
"/app/x" twice equals rewriting it once. -/
theorem c4_rewrite_idempotent_witness :
    rewritePath "/data" (rewritePath "/data" "/app/x") =
      rewritePath "/data" "/app/x" :=
  (c4_rewrite_idempotent_amended "/data" "/app/x").2 (by decide)

/-- C5: whenever any of the five required artifact paths of the result
manifest is absent or empty, `process_result` returns `(False,
"result JSON missing required paths")`, performs no file move, and
never invokes the success callback. -/
theorem c5_missing_path_no_move (host baseDst dateStr : String) (task : Job)
    (result : ResultManifest)
    (h : pathTruthy result.pcap_path = false ∨
         pathTruthy result.ssl_key_file_path = false ∨
         pathTruthy result.content_path = false ∨
         pathTruthy result.html_path = false ∨
         pathTruthy result.screenshot_path = false) :
    process_result host baseDst dateStr task result =
      { ok := false, err := "result JSON missing required paths",
        moves := [], successPaths := none } := by
  have hand : (pathTruthy result.pcap_path && pathTruthy result.ssl_key_file_path &&
      pathTruthy result.content_path && pathTruthy result.html_path &&
      pathTruthy result.screenshot_path) = false := by
    rcases h with h | h | h | h | h <;> simp [h]
  rw [process_result, hand]
  rfl

/-- C5 (witness): a manifest with `content_path` missing is rejected
with the descriptive error, no moves and no callback. -/
theorem c5_missing_path_no_move_witness :
    process_result "/host" "/dst" "20260101" (mkJob 0)
      { pcap_path := some "/app/p", ssl_key_file_path := some "/app/s",
        content_path := none, html_path := some "/app/h",
        screenshot_path := some "/app/sc" } =
      { ok := false, err := "result JSON missing required paths",
        moves := [], successPaths := none } :=
  c5_missing_path_no_move "/host" "/dst" "20260101" (mkJob 0) _
    (Or.inr (Or.inr (Or.inl rfl)))

/-- C7: a `subprocess.TimeoutExpired` from the docker exec is handled
exactly like a non-timeout failure whose error text is
`"timeout>{DOCKER_EXEC_TIMEOUT}s"`: re-enqueue with
`_retry_count = attempt + 1` after the fixed 2-second backoff when
`attempt < retry`, terminal failure via `_handle_final_failure`
otherwise. -/
theorem c7_timeout_like_failure (retry timeoutSecs : Nat) (c : String)
    (ns ne : ℚ) (j : Job) :
    worker_step retry timeoutSecs c ns ne j .timeout =
      worker_step retry timeoutSecs c ns ne j (.fail (timeoutErrText timeoutSecs)) ∧
    (j.retryCount < retry →
      worker_step retry timeoutSecs c ns ne j .timeout =
        .requeued { dispatchPrep c ns j with retryCount := j.retryCount + 1 } 2) ∧
    (¬ j.retryCount < retry →
      worker_step retry timeoutSecs c ns ne j .timeout =
        .terminallyFailed (dispatchPrep c ns j) (timeoutErrText timeoutSecs)
          (ne - j.startTime.getD ns)) := by
  refine ⟨rfl, ?_, ?_⟩
  · intro h
    simp [worker_step, h]
  · intro h
    simp [worker_step, h, dispatchPrep]

/-- C7 (witness): with retry budget 5 a first-attempt timeout is
re-enqueued with `_retry_count = 1` and backoff 2; with budget 0 it
terminally fails with the timeout error text. -/
theorem c7_timeout_like_failure_witness :
    worker_step 5 6000 "c" 0 0 (mkJob 0) .timeout =
      .requeued { dispatchPrep "c" 0 (mkJob 0) with retryCount := 0 + 1 } 2 ∧
    worker_step 0 6000 "c" 0 0 (mkJob 0) .timeout =
      .terminallyFailed (dispatchPrep "c" 0 (mkJob 0)) (timeoutErrText 6000)
        ((0 : ℚ) - (mkJob 0).startTime.getD 0) :=
  ⟨(c7_timeout_like_failure 5 6000 "c" 0 0 (mkJob 0)).2.1 (by decide),
   (c7_timeout_like_failure 0 6000 "c" 0 0 (mkJob 0)).2.2 (by decide)⟩

/-- C10: `chown_recursive` replaces a `None` or `0` uid parameter by
`DEFAULT_UID` and a `None` or `0` gid parameter by `DEFAULT_GID`
(Python `or` on falsy values), so through its parameters it can never
apply uid 0 or gid 0 when the defaults are non-zero. -/
theorem c10_chown_owner_defaults (uid gid : Option Int) (dUid dGid : Int) :
    ((uid = none ∨ uid = some 0) →
      (chown_recursive_owners uid gid dUid dGid).1 = dUid) ∧
    ((gid = none ∨ gid = some 0) →
      (chown_recursive_owners uid gid dUid dGid).2 = dGid) ∧
    (dUid ≠ 0 → (chown_recursive_owners uid gid dUid dGid).1 ≠ 0) ∧
    (dGid ≠ 0 → (chown_recursive_owners uid gid dUid dGid).2 ≠ 0) := by
  refine ⟨?_, ?_, ?_, ?_⟩
  · rintro (rfl | rfl) <;> simp [chown_recursive_owners, chownEffectiveOwner]
  · rintro (rfl | rfl) <;> simp [chown_recursive_owners, chownEffectiveOwner]
  · intro hd
    cases uid with
    | none => exact hd
    | some u =>
      by_cases hu : u = 0 <;>
        simp [chown_recursive_owners, chownEffectiveOwner, hu, hd]
  · intro hd
    cases gid with
    | none => exact hd
    | some g =>
      by_cases hg : g = 0 <;>
        simp [chown_recursive_owners, chownEffectiveOwner, hg, hd]

/-- C10 (witness): uid parameter 0 and gid parameter `None` both fall
back to the (non-zero) defaults. -/
theorem c10_chown_owner_defaults_witness :
    (chown_recursive_owners (some 0) none 1000 1001).1 = 1000 ∧
    (chown_recursive_owners (some 0) none 1000 1001).2 = 1001 ∧
    (chown_recursive_owners (some 0) none 1000 1001).1 ≠ 0 :=
  ⟨(c10_chown_owner_defaults (some 0) none 1000 1001).1 (Or.inr rfl),
   (c10_chown_owner_defaults (some 0) none 1000 1001).2.1 (Or.inl rfl),
   (c10_chown_owner_defaults (some 0) none 1000 1001).2.2.1 (by decide)⟩

/-- Once the `removed` flag is set, the filtering loop keeps every
remaining row unchanged. -/
theorem remove_first_rows_true (target : String) :
    ∀ rows : List Row, remove_first_rows target true rows = (rows, true) := by
  intro rows
  induction rows with
  | nil => rfl
  | cons r rest ih => simp [remove_first_rows, ih]

/-- The filtering loop with the flag clear erases exactly the first
matching row and reports whether any row matched. -/
theorem remove_first_rows_eraseP (target : String) :
    ∀ rows : List Row,
      remove_first_rows target false rows =
        (rows.eraseP (fun r => row_get_id r == target),
         rows.any (fun r => row_get_id r == target)) := by
  intro rows
  induction rows with
  | nil => rfl
  | cons r rest ih =>
    by_cases h : row_get_id r == target
    · simp [remove_first_rows, h, remove_first_rows_true, List.eraseP_cons]
    · simp only [remove_first_rows, h, Bool.not_false, Bool.false_and,
        Bool.and_false, if_neg, ih, List.eraseP_cons, List.any_cons]
      simp [h]

/-- C8: `remove_from_csv` leaves the file unchanged when the stripped
row id is empty, when the file is missing or headerless, or when no
row's id column (first header key lower-casing to "id", value
stripped) equals the stripped id; otherwise it deletes exactly the
first matching row, keeping all other rows unchanged and in their
original order. -/
theorem c8_remove_from_csv_spec (st : CsvState) (rid : String) :
    (pstrip rid = "" → remove_from_csv st rid = st) ∧
    (remove_from_csv .missing rid = .missing) ∧
    (remove_from_csv .headerless rid = .headerless) ∧
    (∀ (h : List String) (rows : List Row), pstrip rid ≠ "" →
      remove_from_csv (.table h rows) rid =
        .table h
          (if rows.any (fun r => row_get_id r == pstrip rid) then
            rows.eraseP (fun r => row_get_id r == pstrip rid)
          else rows)) := by
  refine ⟨?_, ?_, ?_, ?_⟩
  · intro hempty
    simp [remove_from_csv, hempty]
  · by_cases hempty : pstrip rid = "" <;> simp [remove_from_csv, hempty]
  · by_cases hempty : pstrip rid = "" <;> simp [remove_from_csv, hempty]
  · intro h rows hne
    simp only [remove_from_csv, hne, if_neg, remove_first_rows_eraseP]
    by_cases hany : rows.any (fun r => row_get_id r == pstrip rid) <;>
      simp [hany]

/-- C8 (witness): deleting id "3" from a table removes only the first
matching row (ids matched with the "ID" header, values stripped),
keeping the later duplicate; a non-matching id leaves the table
unchanged. -/
theorem c8_remove_from_csv_spec_witness :
    remove_from_csv
        (.table ["ID", "url"]
          [[("ID", " 3 "), ("url", "a")], [("ID", "4"), ("url", "b")],
           [("ID", "3"), ("url", "c")]]) "3" =
      .table ["ID", "url"]
        [[("ID", "4"), ("url", "b")], [("ID", "3"), ("url", "c")]] ∧
    remove_from_csv (.table ["ID", "url"] [[("ID", "4"), ("url", "b")]]) "9" =
      .table ["ID", "url"] [[("ID", "4"), ("url", "b")]] ∧
    remove_from_csv (.table ["ID", "url"] [[("ID", "4"), ("url", "b")]]) " " =
      .table ["ID", "url"] [[("ID", "4"), ("url", "b")]] := by
  refine ⟨?_, ?_, ?_⟩
  · have h := (c8_remove_from_csv_spec
      (.table ["ID", "url"]
        [[("ID", " 3 "), ("url", "a")], [("ID", "4"), ("url", "b")],
         [("ID", "3"), ("url", "c")]]) "3").2.2.2
      ["ID", "url"]
      [[("ID", " 3 "), ("url", "a")], [("ID", "4"), ("url", "b")],
       [("ID", "3"), ("url", "c")]] (by decide)
    rw [h]
    decide
  · have h := (c8_remove_from_csv_spec
      (.table ["ID", "url"] [[("ID", "4"), ("url", "b")]]) "9").2.2.2
      ["ID", "url"] [[("ID", "4"), ("url", "b")]] (by decide)
    rw [h]
    decide
  · exact (c8_remove_from_csv_spec
      (.table ["ID", "url"] [[("ID", "4"), ("url", "b")]]) " ").1 (by decide)

/-- A gate call for an already-seen container changes nothing and
sleeps 0. -/
theorem throttle_wait_zero_of_done (interval : ℚ) (st : ThrottleState) (c : String)
    (t : ℚ) (h : c ∈ st.doneContainers) :
    wait_before_first_exec interval st c t = (st, 0) := by
  simp [wait_before_first_exec, h]

/-- The seen-containers set only grows. -/
theorem throttle_done_mono (interval : ℚ) (st : ThrottleState) (c c' : String)
    (t : ℚ) (h : c ∈ st.doneContainers) :
    c ∈ (wait_before_first_exec interval st c' t).1.doneContainers := by
  by_cases h' : c' ∈ st.doneContainers <;>
    simp [wait_before_first_exec, h', h]

/-- After a gate call for `c`, `c` is in the seen set. -/
theorem throttle_done_self (interval : ℚ) (st : ThrottleState) (c : String) (t : ℚ) :
    c ∈ (wait_before_first_exec interval st c t).1.doneContainers := by
  by_cases h : c ∈ st.doneContainers <;> simp [wait_before_first_exec, h]

/-- A call for a container already in the seen set sleeps 0, wherever
it sits in the call sequence. -/
theorem throttle_wait_zero_after (interval : ℚ) (c : String) :
    ∀ (pre : List (String × ℚ)) (st : ThrottleState) (post : List (String × ℚ))
      (t : ℚ), c ∈ st.doneContainers →
      (throttleWaits interval st (pre ++ (c, t) :: post)).get? pre.length = some 0 := by
  intro pre
  induction pre with
  | nil =>
    intro st post t h
    simp [throttleWaits, wait_before_first_exec, h]
  | cons hd tl ih =>
    intro st post t h
    obtain ⟨c₀, t₀⟩ := hd
    simp only [List.cons_append, throttleWaits, List.length_cons, List.get?_cons_succ]
    exact ih _ post t (throttle_done_mono _ _ _ _ _ h)

/-- Any gate call whose container already appeared earlier in the call
sequence sleeps 0. -/
theorem throttle_first_call_only (interval : ℚ) :
    ∀ (pre : List (String × ℚ)) (st : ThrottleState) (post : List (String × ℚ))
      (c : String) (t : ℚ), c ∈ pre.map Prod.fst →
      (throttleWaits interval st (pre ++ (c, t) :: post)).get? pre.length = some 0 := by
  intro pre
  induction pre with
  | nil => intro st post c t h; simp at h
  | cons hd tl ih =>
    intro st post c t h
    obtain ⟨c₀, t₀⟩ := hd
    rw [List.map_cons, List.mem_cons] at h
    simp only [List.cons_append, throttleWaits, List.length_cons, List.get?_cons_succ]
    rcases h with h | h
    · subst h
      exact throttle_wait_zero_after interval c tl _ post t
        (throttle_done_self interval st c t₀)
    · exact ih _ post c t h

/-- Each gate call sleeps at most (containers already through the
gate) × interval, provided the clock is monotone and the initial next
timestamp is consistent with the first call. -/
theorem throttle_wait_le (interval : ℚ) (hI : 0 ≤ interval) :
    ∀ (calls : List (String × ℚ)) (st : ThrottleState),
      List.Chain' (· ≤ ·) (calls.map Prod.snd) →
      (∀ x ∈ calls.head?, st.nextTs ≤ x.2 + (st.doneContainers.length : ℚ) * interval) →
      ∀ p ∈ throttleTrace interval st calls, p.2 ≤ (p.1 : ℚ) * interval := by
  intro calls
  induction calls with
  | nil => intro st _ _ p hp; simp [throttleTrace] at hp
  | cons hd rest ih =>
    intro st hchain hnext p hp
    obtain ⟨c, t⟩ := hd
    rw [List.map_cons, List.chain'_cons'] at hchain
    obtain ⟨hheadle, hchain'⟩ := hchain
    have hst : st.nextTs ≤ t + (st.doneContainers.length : ℚ) * interval :=
      hnext (c, t) (by simp)
    have hLnn : (0 : ℚ) ≤ (st.doneContainers.length : ℚ) * interval :=
      mul_nonneg (Nat.cast_nonneg _) hI
    have hmax : max t st.nextTs ≤ t + (st.doneContainers.length : ℚ) * interval :=
      max_le (le_add_of_nonneg_right hLnn) hst
    simp only [throttleTrace, List.mem_cons] at hp
    rcases hp with rfl | hp
    · by_cases hc : c ∈ st.doneContainers
      · simpa [wait_before_first_exec, hc] using hLnn
      · simp only [wait_before_first_exec, hc, if_neg, if_false, not_false_iff]
        simpa using sub_le_iff_le_add'.mpr hmax
    · refine ih (wait_before_first_exec interval st c t).1 hchain' ?_ p hp
      intro x hx
      have htx : t ≤ x.2 := by
        apply hheadle x.2
        rw [List.head?_map]
        rw [show rest.head? = some x from hx]
        rfl
      by_cases hc : c ∈ st.doneContainers
      · simp only [wait_before_first_exec, hc, if_pos]
        linarith
      · simp only [wait_before_first_exec, hc, if_neg, if_false, not_false_iff,
          List.length_cons]
        push_cast
        have : max t st.nextTs + interval ≤
            t + (st.doneContainers.length : ℚ) * interval + interval := by
          linarith
        linarith

/-- C3 (counterexample): three environments hitting the gate at the
same instant with interval 1 sleep 0, 1 and 2 respectively — the third
environment's total throttle delay is 2, exceeding one interval. -/
theorem c3_throttle_counterexample :
    throttleWaits 1 ⟨0, []⟩ [("A", 0), ("B", 0), ("C", 0)] = [0, 1, 2] ∧
    ¬ ((2 : ℚ) ≤ 1) := by
  constructor
  · simp +decide [throttleWaits, wait_before_first_exec]
    norm_num
  · norm_num

/-- C3 (amended): only the first gate call for an environment may
sleep — any call whose environment appeared earlier in the sequence
sleeps 0 — and, when the clock is monotone and the initial timestamp
consistent, an environment's single sleep is bounded by (number of
environments already through the gate) × interval.  The bound of one
interval claimed originally fails (see the counterexample). -/
theorem c3_throttle_amended (interval : ℚ) (st : ThrottleState) :
    (∀ (pre post : List (String × ℚ)) (c : String) (t : ℚ),
      c ∈ pre.map Prod.fst →
      (throttleWaits interval st (pre ++ (c, t) :: post)).get? pre.length = some 0) ∧
    (0 ≤ interval → ∀ calls : List (String × ℚ),
      List.Chain' (· ≤ ·) (calls.map Prod.snd) →
      (∀ x ∈ calls.head?, st.nextTs ≤ x.2 + (st.doneContainers.length : ℚ) * interval) →
      ∀ p ∈ throttleTrace interval st calls, p.2 ≤ (p.1 : ℚ) * interval) :=
  ⟨fun pre post c t h => throttle_first_call_only interval pre st post c t h,
   fun hI calls hchain hnext => throttle_wait_le interval hI calls st hchain hnext⟩

/-- C3 (witness): a repeat call for environment "A" sleeps 0, and in
the two-environment simultaneous-arrival trace the second
environment's sleep of 1 is within one seen-count interval. -/
theorem c3_throttle_amended_witness :
    (throttleWaits 1 ⟨0, []⟩ [("A", 0), ("A", 1), ("B", 2)]).get? 1 = some 0 ∧
    ((1 : ℚ) ≤ ((1 : ℕ) : ℚ) * 1) := by
  constructor
  · exact (c3_throttle_amended 1 ⟨0, []⟩).1 [("A", 0)] [("B", 2)] "A" 1 (by simp)
  · refine (c3_throttle_amended 1 ⟨0, []⟩).2 (by norm_num) [("A", 0), ("B", 0)]
      (by simp) (by simp) ((1 : ℕ), (1 : ℚ)) ?_
    simp [throttleTrace, wait_before_first_exec]

/-- Inversion: a re-enqueue produced by `worker_step` is the prepped
task with `_retry_count` bumped to `attempt + 1` and the fixed backoff
2, and happens only when `attempt < retry`. -/
theorem worker_step_requeued {retry timeoutSecs : Nat} {c : String} {ns ne : ℚ}
    {j j' : Job} {o : Outcome} {b : ℚ}
    (h : worker_step retry timeoutSecs c ns ne j o = .requeued j' b) :
    j' = { dispatchPrep c ns j with retryCount := j.retryCount + 1 } ∧
      b = 2 ∧ j.retryCount < retry := by
  cases o <;> simp only [worker_step] at h
  · cases h
  · split at h
    · cases h; exact ⟨rfl, rfl, by assumption⟩
    · cases h
  · split at h
    · cases h; exact ⟨rfl, rfl, by assumption⟩
    · cases h
  · split at h
    · cases h; exact ⟨rfl, rfl, by assumption⟩
    · cases h

/-- Inversion: a success result of `worker_step` records elapsed time
measured from the task's first-dispatch timestamp. -/
theorem worker_step_succeeded {retry timeoutSecs : Nat} {c : String} {ns ne : ℚ}
    {j : Job} {o : Outcome} {e : ℚ}
    (h : worker_step retry timeoutSecs c ns ne j o = .succeeded e) :
    e = ne - j.startTime.getD ns := by
  cases o <;> simp only [worker_step] at h
  · cases h; rfl
  all_goals split at h <;> cases h

/-- Inversion: a terminal failure of `worker_step` carries the prepped
task and elapsed time measured from the first-dispatch timestamp, and
happens only when `attempt ≥ retry`. -/
theorem worker_step_terminal {retry timeoutSecs : Nat} {c : String} {ns ne : ℚ}
    {j j' : Job} {o : Outcome} {err : String} {e : ℚ}
    (h : worker_step retry timeoutSecs c ns ne j o = .terminallyFailed j' err e) :
    j' = dispatchPrep c ns j ∧ e = ne - j.startTime.getD ns ∧
      ¬ j.retryCount < retry := by
  cases o <;> simp only [worker_step] at h
  · cases h
  all_goals
    split at h
    · cases h
    · cases h; exact ⟨rfl, rfl, by assumption⟩

/-- With all executions failing, the dispatch trace starting at attempt
`a ≤ retry` visits exactly the attempts `a, a+1, …, retry`. -/
theorem all_fail_dispatches_range (retry timeoutSecs : Nat) (err : String) :
    ∀ (fuel a : Nat) (j : Job), j.retryCount = a → a ≤ retry →
      retry + 1 - a ≤ fuel →
      all_fail_dispatches retry timeoutSecs err fuel j =
        List.range' a (retry + 1 - a) := by
  intro fuel
  induction fuel with
  | zero => intro a j _ hle hf; omega
  | succ n ih =>
    intro a j ha hle hf
    by_cases hlt : a < retry
    · have hws : worker_step retry timeoutSecs "c0" 0 0 j (.fail err) =
          .requeued { dispatchPrep "c0" 0 j with retryCount := a + 1 } 2 := by
        simp [worker_step, ha, hlt]
      rw [all_fail_dispatches, hws, ha]
      show a :: all_fail_dispatches retry timeoutSecs err n
          { dispatchPrep "c0" 0 j with retryCount := a + 1 } =
        List.range' a (retry + 1 - a)
      rw [ih (a + 1) _ (by simp [dispatchPrep]) (by omega) (by omega)]
      have harith : retry + 1 - (a + 1) = retry - a := by omega
      have hsplit : retry + 1 - a = (retry - a) + 1 := by omega
      rw [harith, hsplit, List.range'_succ]
    · have ha' : a = retry := by omega
      have hws : worker_step retry timeoutSecs "c0" 0 0 j (.fail err) =
          .terminallyFailed (dispatchPrep "c0" 0 j) err
            ((0 : ℚ) - j.startTime.getD 0) := by
        simp [worker_step, ha, hlt, dispatchPrep]
      rw [all_fail_dispatches, hws, ha, ha']
      simp

/-- C2: a failed execution with `attempt < retry` re-enqueues the job
with `_retry_count = attempt + 1` (after the fixed backoff); one with
`attempt = retry` takes the terminal-failure path and is never
re-enqueued; hence a job failing every execution is dispatched exactly
`retry + 1` times, at attempt values `0, …, retry`, regardless of how
much longer the batch runs. -/
theorem c2_retry_budget (retry timeoutSecs : Nat) (c : String) (ns ne : ℚ)
    (err : String) (j : Job) :
    (j.retryCount < retry →
      worker_step retry timeoutSecs c ns ne j (.fail err) =
        .requeued { dispatchPrep c ns j with retryCount := j.retryCount + 1 } 2) ∧
    (j.retryCount = retry →
      worker_step retry timeoutSecs c ns ne j (.fail err) =
        .terminallyFailed (dispatchPrep c ns j) err (ne - j.startTime.getD ns)) ∧
    (j.retryCount = 0 → ∀ fuel, retry + 1 ≤ fuel →
      all_fail_dispatches retry timeoutSecs err fuel j =
        List.range (retry + 1)) := by
  refine ⟨?_, ?_, ?_⟩
  · intro h
    simp [worker_step, h]
  · intro h
    simp [worker_step, h, dispatchPrep]
  · intro h0 fuel hf
    rw [all_fail_dispatches_range retry timeoutSecs err fuel 0 j h0 (by omega)
      (by omega)]
    rw [List.range_eq_range', Nat.sub_zero]

/-- C2 (witness): with retry budget 5 an always-failing job is
dispatched at attempts 0,1,2,3,4,5 — six times — even with fuel for
ten dispatches; a first failure re-enqueues at `_retry_count = 1`; at
`attempt = retry = 0` the job terminally fails. -/
theorem c2_retry_budget_witness :
    all_fail_dispatches 5 6000 "e" 10 (mkJob 0) = List.range 6 ∧
    worker_step 5 6000 "c" 0 0 (mkJob 0) (.fail "e") =
      .requeued { dispatchPrep "c" 0 (mkJob 0) with retryCount := 0 + 1 } 2 ∧
    worker_step 0 6000 "c" 0 0 (mkJob 0) (.fail "e") =
      .terminallyFailed (dispatchPrep "c" 0 (mkJob 0)) "e"
        ((0 : ℚ) - (mkJob 0).startTime.getD 0) :=
  ⟨(c2_retry_budget 5 6000 "c" 0 0 "e" (mkJob 0)).2.2 rfl 10 (by omega),
   (c2_retry_budget 5 6000 "c" 0 0 "e" (mkJob 0)).1 (by decide),
   (c2_retry_budget 0 6000 "c" 0 0 "e" (mkJob 0)).2.1 rfl⟩

/-- C9: `_start_time` is stamped on the job's first dispatch
(`getD now` leaves an existing stamp untouched), every re-enqueued copy
carries the same stamp, a whole chain of retry dispatches preserves it,
and the elapsed time recorded at success or terminal failure is always
`completion − first-dispatch stamp`. -/
theorem c9_start_time_immutable (retry timeoutSecs : Nat) (c : String)
    (ns ne : ℚ) (j : Job) (o : Outcome) :
    (∀ (j' : Job) (b : ℚ),
      worker_step retry timeoutSecs c ns ne j o = .requeued j' b →
      j'.startTime = some (j.startTime.getD ns)) ∧
    (∀ e : ℚ, worker_step retry timeoutSecs c ns ne j o = .succeeded e →
      e = ne - j.startTime.getD ns) ∧
    (∀ (j' : Job) (err : String) (e : ℚ),
      worker_step retry timeoutSecs c ns ne j o = .terminallyFailed j' err e →
      j'.startTime = some (j.startTime.getD ns) ∧
        e = ne - j.startTime.getD ns) ∧
    (∀ (t : ℚ) (events : List (String × ℚ × ℚ × Outcome)),
      j.startTime = some t →
      (run_requeues retry timeoutSecs j events).startTime = some t) := by
  refine ⟨?_, ?_, ?_, ?_⟩
  · intro j' b h
    rw [(worker_step_requeued h).1]
    simp [dispatchPrep]
  · intro e h
    exact worker_step_succeeded h
  · intro j' err e h
    obtain ⟨hj', he, _⟩ := worker_step_terminal h
    subst hj'
    exact ⟨by simp [dispatchPrep], he⟩
  · intro t events
    induction events generalizing j with
    | nil => intro hst; simpa [run_requeues] using hst
    | cons ev rest ih =>
      intro hst
      obtain ⟨c', ns', ne', o'⟩ := ev
      rw [run_requeues]
      cases hws : worker_step retry timeoutSecs c' ns' ne' j o' with
      | succeeded e => exact hst
      | terminallyFailed j' err e => exact hst
      | requeued j' b =>
        refine ih j' ?_
        rw [(worker_step_requeued hws).1]
        simp [dispatchPrep, hst]

/-- C9 (witness): a job first dispatched at time 5 with `_start_time`
already 3 keeps stamp 3 through two further failing dispatches, and a
fresh job's requeued copy is stamped with its first dispatch time. -/
theorem c9_start_time_immutable_witness :
    (run_requeues 5 6000 { mkJob 0 with startTime := some 3 }
        [("c", 5, 6, .fail "e"), ("d", 8, 9, .fail "e")]).startTime = some 3 ∧
    ({ dispatchPrep "c" 5 (mkJob 0) with retryCount := 0 + 1 } : Job).startTime =
      some ((mkJob 0).startTime.getD 5) :=
  ⟨(c9_start_time_immutable 5 6000 "c" 0 0 { mkJob 0 with startTime := some 3 }
      .ok).2.2.2 3 [("c", 5, 6, .fail "e"), ("d", 8, 9, .fail "e")] rfl,
   (c9_start_time_immutable 5 6000 "c" 5 6 (mkJob 0) (.fail "e")).1
      { dispatchPrep "c" 5 (mkJob 0) with retryCount := 0 + 1 } 2 rfl⟩

/-- One batch step conserves `ok + fail + pending` and preserves
"one error sample per terminal failure". -/
theorem batch_step_counts {retry timeoutSecs : Nat} {s s' : BatchState}
    (h : BatchStep retry timeoutSecs s s') :
    s'.stats.ok + s'.stats.fail + s'.queue.length =
      s.stats.ok + s.stats.fail + s.queue.length ∧
    (s.stats.errors.length = s.stats.fail →
      s'.stats.errors.length = s'.stats.fail) := by
  cases h with
  | dispatch c ns ne o j rest stats =>
    cases hws : worker_step retry timeoutSecs c ns ne j o with
    | succeeded e =>
      refine ⟨?_, fun h0 => ?_⟩
      · simp [hws, apply_step] <;> omega
      · simp only at h0
        simp [hws, apply_step, h0]
    | requeued j' b =>
      refine ⟨?_, fun h0 => ?_⟩
      · simp [hws, apply_step] <;> omega
      · simp only at h0
        simp [hws, apply_step, h0]
    | terminallyFailed j' err e =>
      refine ⟨?_, fun h0 => ?_⟩
      · simp [hws, apply_step, handle_final_failure] <;> omega
      · simp only at h0
        simp [hws, apply_step, handle_final_failure, h0]

/-- The two step invariants hold along any batch execution. -/
theorem batch_reaches_counts {retry timeoutSecs : Nat} {s s' : BatchState}
    (h : BatchReaches retry timeoutSecs s s') :
    s'.stats.ok + s'.stats.fail + s'.queue.length =
      s.stats.ok + s.stats.fail + s.queue.length ∧
    (s.stats.errors.length = s.stats.fail →
      s'.stats.errors.length = s'.stats.fail) := by
  induction h with
  | refl => exact ⟨rfl, id⟩
  | tail _ hstep ih =>
    have h2 := batch_step_counts hstep
    exact ⟨by rw [h2.1, ih.1], fun h0 => h2.2 (ih.2 h0)⟩

/-- C1: along any execution of `run_once` from a submitted job list,
`ok + fail + pending jobs` stays equal to the number of submitted
jobs; hence when the batch runs to completion (empty queue, as awaited
by `q.join()`) every job has been counted in exactly one of
`stats["ok"]`/`stats["fail"]`, and their sum is the number submitted —
even across re-enqueued retries. -/
theorem c1_batch_conservation (retry timeoutSecs : Nat) (jobs : List Job)
    (s' : BatchState)
    (h : BatchReaches retry timeoutSecs (run_once_init jobs) s') :
    s'.stats.ok + s'.stats.fail + s'.queue.length = jobs.length ∧
    (s'.queue = [] → s'.stats.ok + s'.stats.fail = jobs.length) := by
  have hinv := (batch_reaches_counts h).1
  simp only [run_once_init] at hinv
  constructor
  · simpa using hinv
  · intro hempty
    rw [hempty] at hinv
    simpa using hinv

/-- C1 (witness): a one-job batch that succeeds on its first dispatch
ends with `ok + fail = 1`. -/
theorem c1_batch_conservation_witness :
    ({ ok := 1, fail := 0, errors := [] } : RunStats).ok +
      ({ ok := 1, fail := 0, errors := [] } : RunStats).fail =
      [mkJob 0].length := by
  have hstep : BatchStep 5 6000 (run_once_init [mkJob 0])
      ⟨[], { ok := 1, fail := 0, errors := [] }⟩ :=
    BatchStep.dispatch "c" 0 0 .ok (mkJob 0) [] {}
  exact (c1_batch_conservation 5 6000 [mkJob 0] _
    (Relation.ReflTransGen.single hstep)).2 rfl

/-- A replayed all-failures batch is a genuine batch execution. -/
theorem run_once_all_fail_reaches (retry timeoutSecs : Nat) (err : String) :
    ∀ (fuel : Nat) (s : BatchState),
      BatchReaches retry timeoutSecs s
        (run_once_all_fail retry timeoutSecs err fuel s) := by
  intro fuel
  induction fuel with
  | zero => intro s; exact .refl
  | succ n ih =>
    intro s
    obtain ⟨queue, stats⟩ := s
    cases queue with
    | nil =>
      rw [run_once_all_fail]
    | cons j rest =>
      rw [run_once_all_fail]
      exact Relation.ReflTransGen.head
        (BatchStep.dispatch "c0" 0 0 (.fail err) j rest stats) (ih _)

/-- C6 (counterexample): a completed batch of 11 jobs with retry
budget 0 in which every execution fails is a reachable final state
whose `stats["errors"]` holds 11 samples — the list is not capped at
10. -/
theorem c6_errors_capped_counterexample :
    BatchReaches 0 6000 (run_once_init ((List.range 11).map mkJob))
      (run_once_all_fail 0 6000 "boom" 11
        (run_once_init ((List.range 11).map mkJob))) ∧
    (run_once_all_fail 0 6000 "boom" 11
      (run_once_init ((List.range 11).map mkJob))).queue = [] ∧
    (run_once_all_fail 0 6000 "boom" 11
      (run_once_init ((List.range 11).map mkJob))).stats.errors.length = 11 ∧
    ¬ ((run_once_all_fail 0 6000 "boom" 11
      (run_once_init ((List.range 11).map mkJob))).stats.errors.length ≤ 10) :=
  ⟨run_once_all_fail_reaches 0 6000 "boom" 11 _, by decide, by decide, by decide⟩

/-- C6 (amended): `stats["errors"]` receives exactly one `(job, error)`
entry per terminally failed job with no cap; the ten-sample bound
applies only to the samples the batch summary prints, namely
`stats["errors"][:10]`, whose length never exceeds 10. -/
theorem c6_errors_capped_amended (retry timeoutSecs : Nat) (jobs : List Job)
    (s' : BatchState)
    (h : BatchReaches retry timeoutSecs (run_once_init jobs) s') :
    s'.stats.errors.length = s'.stats.fail ∧
    (reported_error_samples s'.stats).length ≤ 10 := by
  have herr := (batch_reaches_counts h).2 (by simp [run_once_init])
  refine ⟨herr, ?_⟩
  simp only [reported_error_samples, List.length_take]
  omega

/-- C6 (witness): after a one-job batch ending in a terminal failure,
the error list has exactly one entry (= fail count) and the reported
samples are within the ten-entry bound. -/
theorem c6_errors_capped_amended_witness :
    (RunStats.mk 0 1 [(dispatchPrep "c" 0 (mkJob 0), "e")]).errors.length =
      (RunStats.mk 0 1 [(dispatchPrep "c" 0 (mkJob 0), "e")]).fail ∧
    (reported_error_samples
      (RunStats.mk 0 1 [(dispatchPrep "c" 0 (mkJob 0), "e")])).length ≤ 10 := by
  have hstep : BatchStep 0 6000 (run_once_init [mkJob 0])
      ⟨[], RunStats.mk 0 1 [(dispatchPrep "c" 0 (mkJob 0), "e")]⟩ :=
    BatchStep.dispatch "c" 0 0 (.fail "e") (mkJob 0) [] {}
  exact c6_errors_capped_amended 0 6000 [mkJob 0] _
    (Relation.ReflTransGen.single hstep)

end TrafficIngestor
